import Mathlib

/-!
Verification of the grid-world and character-controller core of the voxel
shooter prototypes (src/main.js and the two variants in src/unnamed/part_000).

Coordinates are modelled exactly.  Because the input-direction vector is
normalized (three.js `Vector3.normalize`), a diagonal intent produces the
irrational factor 1/√2, so horizontal world coordinates live in the field
ℚ(√2), represented by the pair type `Q2` below (`a + b·√2`).  Vertical
position and velocity never pass through `normalize` and stay in ℚ.

Camera orientation is abstracted to the identity yaw (the engine-supplied
`moveRight`/`moveForward` basis is out-of-scope glue per the spec): a
`moveRight d` call adds `d` to world x, a `moveForward d` call adds `d` to
world z.
-/

/-- Exact elements of ℚ(√2): the value `a + b·√2`. -/
structure Q2 where
  a : ℚ
  b : ℚ
deriving DecidableEq

namespace Q2

/-- Embed a rational number as an element of ℚ(√2). -/
def ofQ (q : ℚ) : Q2 := ⟨q, 0⟩

instance : Zero Q2 := ⟨⟨0, 0⟩⟩

instance : One Q2 := ⟨⟨1, 0⟩⟩

instance : Add Q2 := ⟨fun x y => ⟨x.a + y.a, x.b + y.b⟩⟩

instance : Neg Q2 := ⟨fun x => ⟨-x.a, -x.b⟩⟩

instance : Sub Q2 := ⟨fun x y => ⟨x.a - y.a, x.b - y.b⟩⟩

instance : Mul Q2 := ⟨fun x y => ⟨x.a * y.a + 2 * x.b * y.b, x.a * y.b + x.b * y.a⟩⟩

instance : Inv Q2 := ⟨fun x => ⟨x.a / (x.a ^ 2 - 2 * x.b ^ 2), -x.b / (x.a ^ 2 - 2 * x.b ^ 2)⟩⟩

instance : Div Q2 := ⟨fun x y => x * y⁻¹⟩

/-- Floor of `a + b·√2`, computed exactly.  For `b ≠ 0` the value is written
over a common denominator as `(P ± √(2·M²))/N` with integers `P`, `M`, `N`
(`N > 0`), and the floor is obtained from the integer square root: `2·M²` is
never a perfect square for `M ≠ 0`, so `⌊(P - √(2M²))/N⌋` uses
`⌈√(2M²)⌉ = ⌊√(2M²)⌋ + 1`. -/
def floor (x : Q2) : ℤ :=
  if x.b = 0 then ⌊x.a⌋
  else
    let P : ℤ := x.a.num * (x.b.den : ℤ)
    let M : ℤ := x.b.num * (x.a.den : ℤ)
    let N : ℤ := (x.a.den : ℤ) * (x.b.den : ℤ)
    let s : ℤ := (Nat.sqrt (2 * M.natAbs ^ 2) : ℤ)
    if 0 < M then Int.fdiv (P + s) N else Int.fdiv (P - (s + 1)) N

end Q2

/-- Edge length of one voxel block in world units: `BLOCK_SIZE` in
src/main.js line 13 and src/unnamed/part_000 line 13, `MAP_SCALE` in the
third variant (src/unnamed/part_000 line 309).  Equal to 5 in all three. -/
def BLOCK_SIZE : ℚ := 5

/-- JavaScript `Math.round` on exact inputs: round to nearest integer, ties
toward +∞ (`Math.round(x) = ⌊x + 1/2⌋`; in particular `Math.round(-0.5) = -0`
and the template string renders `-0` as `"0"`, so the integer model is
exact). -/
def jsRound (q : ℚ) : ℤ := ⌊q + 1 / 2⌋

/-- `Math.round` lifted to the exact coordinate field ℚ(√2). -/
def jsRoundQ2 (x : Q2) : ℤ := Q2.floor (x + Q2.ofQ (1 / 2))

/-- registerBlock (src/main.js lines 48-52, src/unnamed/part_000 lines 54-58):
adds the key `"${Math.round(x)},${Math.round(z)}"` to the `solidBlocks` set.
The string key is modelled by the integer pair it encodes (the encoding is
injective on integer pairs). -/
def registerBlock (solid : Finset (ℤ × ℤ)) (x z : ℚ) : Finset (ℤ × ℤ) :=
  insert (jsRound x, jsRound z) solid

/-- checkCollision (src/main.js lines 54-58, src/unnamed/part_000 lines
60-66): divides the world coordinates by `BLOCK_SIZE`, rounds with
`Math.round`, and reports membership of the key in `solidBlocks`.  Pure and
total; the set is not modified. -/
def checkCollision (solid : Finset (ℤ × ℤ)) (x z : Q2) : Bool :=
  decide ((jsRoundQ2 (x / Q2.ofQ BLOCK_SIZE), jsRoundQ2 (z / Q2.ofQ BLOCK_SIZE)) ∈ solid)

/-- Axis-separated horizontal collision resolution, src/main.js lines 257-270
and src/unnamed/part_000 lines 260-274 (both variants compute exactly this):
apply the X displacement (`controls.moveRight(moveX)`), test the resulting
(x, z) cell, undo the X displacement (`moveRight(-moveX)`) if solid; then
apply the Z displacement to the possibly-updated position
(`controls.moveForward(moveZ)`), test, and undo only it if solid. -/
def resolveHoriz (solid : Finset (ℤ × ℤ)) (x z mx mz : Q2) : Q2 × Q2 :=
  let x1 := x + mx
  let x2 := if checkCollision solid x1 z then x1 + -mx else x1
  let z1 := z + mz
  let z2 := if checkCollision solid x2 z1 then z1 + -mz else z1
  (x2, z2)

/-- Vertical fragment of the frame step (gravity, integration, ground clamp,
jump), src/main.js lines 242-243 and 272-282; src/unnamed/part_000 lines
249-250 and 276-286.  Gravity is applied to the velocity first
(`velocity.y -= g * delta`), then the position integrates, and if the result
is strictly below the eye height the position is clamped, the velocity zeroed
and, when the space key is held, set to the jump force.  Returns the pair
(new y, new vertical velocity). -/
def vstep (g H jf : ℚ) (y vv dt : ℚ) (space : Bool) : ℚ × ℚ :=
  let vv1 := vv - g * dt
  let y1 := y + vv1 * dt
  if y1 < H then (H, if space then jf else 0) else (y1, vv1)

/-- JavaScript `Number()` applied to a key-state boolean. -/
def numKey (k : Bool) : ℚ := if k then 1 else 0

/-- Square root used by `Vector3.length` on input intent vectors.  The
components of the intent vector are each in {-1, 0, 1}
(see `intent_lenSq_mem`), so the squared length is 0, 1 or 2; those three
values are the whole domain this function is applied to. -/
def q2sqrtSmall (q : ℚ) : Q2 :=
  if q = 0 then 0 else if q = 1 then 1 else if q = 2 then ⟨0, 1⟩ else 0

/-- three.js `Vector3.normalize`: `divideScalar(length() || 1)` — the vector
is divided by its length, except that a zero length is replaced by 1 (so the
zero vector is returned unchanged, not NaN).  The y component of `direction`
is never written by the source and stays 0, so only x and z enter the
length. -/
def jsNormalize (dx dz : ℚ) : Q2 × Q2 :=
  let len := q2sqrtSmall (dx * dx + dz * dz)
  let d := if len = 0 then 1 else len
  (Q2.ofQ dx / d, Q2.ofQ dz / d)

/-- Character state: horizontal position in ℚ(√2), vertical position and
vertical velocity in ℚ (`controls.getObject().position` and `velocity.y`). -/
structure CState where
  x : Q2
  y : ℚ
  z : Q2
  vy : ℚ
deriving DecidableEq

/-- One frame step of the locked controller, src/main.js lines 241-283 /
src/unnamed/part_000 lines 248-287, parameterized by the tuning constants
(gravity `g`, eye height `H`, movement speed `speed`, jump force `jf`):
gravity, input direction from the WASD key states, normalization, the
proposed displacement `direction * speed * delta`, axis-separated horizontal
collision resolution, then vertical integration with ground clamp and jump.
main.js uses `animate 100 10 60 40`; the first part_000 variant uses
`animate 100 9 50 35`. -/
def animate (g H speed jf : ℚ) (solid : Finset (ℤ × ℤ)) (st : CState)
    (w a s d space : Bool) (dt : ℚ) : CState :=
  let dirz := numKey w - numKey s
  let dirx := numKey d - numKey a
  let n := jsNormalize dirx dirz
  let mx := n.1 * Q2.ofQ (speed * dt)
  let mz := n.2 * Q2.ofQ (speed * dt)
  let hpos := resolveHoriz solid st.x st.z mx mz
  let v := vstep g H jf st.y st.vy dt space
  ⟨hpos.1, v.1, hpos.2, v.2⟩

/-- Number of `registerBlock` calls that buildMap in src/main.js (lines
111-142) makes for a cell-type code: code 2 builds one crate, code 3 builds a
three-high wall (three voxels), code 4 builds a two-high red container; codes
0 (void) and 1 (floor) build no solid voxel (`createVoxel` with type
`'floor'` does not register). -/
def obstacleRegsV1 (t : ℕ) : ℕ :=
  if t = 2 then 1 else if t = 3 then 3 else if t = 4 then 2 else 0

/-- Grid key registered for layout position (column `ci`, row `ri`) by
src/main.js buildMap: world x = `ci * BLOCK_SIZE - offset` with
`offset = n * BLOCK_SIZE / 2` (`n` = number of layout rows), and
`createVoxel` passes `x / BLOCK_SIZE = ci - n/2` to `registerBlock`, which
rounds it. -/
def keyV1 (n ci ri : ℕ) : ℤ × ℤ :=
  (jsRound ((ci : ℚ) - n / 2), jsRound ((ri : ℚ) - n / 2))

/-- Number of `registerBlock` calls the first part_000 variant makes per
cell-type code (buildMap, src/unnamed/part_000 lines 112-147; its
`createVoxel`, lines 101-110, registers every voxel): code 1 = one green
crate, code 2 = two red crates, code 3 = three wall crates; codes 0 (floor)
and 9 (void) register nothing. -/
def obstacleRegsV2 (t : ℕ) : ℕ :=
  if t = 1 then 1 else if t = 2 then 2 else if t = 3 then 3 else 0

/-- Grid key registered for layout position (column `ci`, row `ri`) by the
first part_000 variant: integer coordinates `ci - offsetX`, `ri - offsetZ`
passed to `registerBlock`, which rounds them (a no-op on integers). -/
def keyV2 (oX oZ ci ri : ℕ) : ℤ × ℤ :=
  (jsRound ((ci : ℚ) - oX), jsRound ((ri : ℚ) - oZ))

/-- Keys registered while scanning one layout row: at each column the cell's
code determines how many times the (always identical) key is added. -/
def regRow (regs : ℕ → ℕ) (key : ℕ → ℕ → ℤ × ℤ) (ri : ℕ) : ℕ → List ℕ → List (ℤ × ℤ)
  | _, [] => []
  | ci, t :: ts => List.replicate (regs t) (key ci ri) ++ regRow regs key ri (ci + 1) ts

/-- Keys registered while scanning all layout rows in order. -/
def regRows (regs : ℕ → ℕ) (key : ℕ → ℕ → ℤ × ℤ) : ℕ → List (List ℕ) → List (ℤ × ℤ)
  | _, [] => []
  | ri, r :: rs => regRow regs key ri 0 r ++ regRows regs key (ri + 1) rs

/-- The `solidBlocks` set produced by running src/main.js `buildMap` on a
layout: every registered key, deduplicated by the JS `Set`. -/
def buildMapV1 (L : List (List ℕ)) : Finset (ℤ × ℤ) :=
  (regRows obstacleRegsV1 (keyV1 L.length) 0 L).toFinset

/-- The `solidBlocks` set produced by running the first part_000 variant's
`buildMap` on a layout: `offsetX = ⌊(first row length)/2⌋`,
`offsetZ = ⌊(row count)/2⌋` (`Math.floor` on integers half = integer
division). -/
def buildMapV2 (L : List (List ℕ)) : Finset (ℤ × ℤ) :=
  (regRows obstacleRegsV2 (keyV2 ((L.headD []).length / 2) (L.length / 2)) 0 L).toFinset

/-- The Shipment layout of src/main.js, lines 90-106. -/
def levelLayoutV1 : List (List ℕ) :=
  [[3, 3, 3, 3, 3, 3, 3, 3, 3, 3, 3, 3, 3, 3, 3],
   [3, 1, 1, 1, 1, 2, 1, 1, 1, 2, 1, 1, 1, 1, 3],
   [3, 1, 4, 4, 1, 1, 1, 1, 1, 1, 1, 4, 4, 1, 3],
   [3, 1, 4, 4, 1, 2, 1, 1, 1, 2, 1, 4, 4, 1, 3],
   [3, 1, 1, 1, 1, 1, 1, 1, 1, 1, 1, 1, 1, 1, 3],
   [3, 2, 1, 1, 1, 3, 3, 1, 3, 3, 1, 1, 1, 2, 3],
   [3, 1, 1, 1, 1, 3, 0, 0, 0, 3, 1, 1, 1, 1, 3],
   [3, 1, 1, 1, 1, 1, 0, 0, 0, 1, 1, 1, 1, 1, 3],
   [3, 1, 1, 1, 1, 3, 0, 0, 0, 3, 1, 1, 1, 1, 3],
   [3, 2, 1, 1, 1, 3, 3, 1, 3, 3, 1, 1, 1, 2, 3],
   [3, 1, 1, 1, 1, 1, 1, 1, 1, 1, 1, 1, 1, 1, 3],
   [3, 1, 4, 4, 1, 2, 1, 1, 1, 2, 1, 4, 4, 1, 3],
   [3, 1, 4, 4, 1, 1, 1, 1, 1, 1, 1, 4, 4, 1, 3],
   [3, 1, 1, 1, 1, 2, 1, 1, 1, 2, 1, 1, 1, 1, 3],
   [3, 3, 3, 3, 3, 3, 3, 3, 3, 3, 3, 3, 3, 3, 3]]

/-- The layout of the first part_000 variant, lines 85-99. -/
def levelLayoutV2 : List (List ℕ) :=
  [[3, 3, 3, 3, 3, 3, 3, 3, 3, 3, 3, 3, 3],
   [3, 0, 0, 0, 1, 0, 0, 0, 1, 0, 0, 0, 3],
   [3, 0, 2, 2, 0, 0, 0, 0, 0, 2, 2, 0, 3],
   [3, 0, 2, 2, 0, 1, 0, 1, 0, 2, 2, 0, 3],
   [3, 0, 0, 0, 0, 0, 0, 0, 0, 0, 0, 0, 3],
   [3, 1, 0, 1, 0, 2, 0, 2, 0, 1, 0, 1, 3],
   [3, 0, 0, 0, 0, 0, 0, 0, 0, 0, 0, 0, 3],
   [3, 1, 0, 1, 0, 2, 0, 2, 0, 1, 0, 1, 3],
   [3, 0, 0, 0, 0, 0, 0, 0, 0, 0, 0, 0, 3],
   [3, 0, 2, 2, 0, 1, 0, 1, 0, 2, 2, 0, 3],
   [3, 0, 2, 2, 0, 0, 0, 0, 0, 2, 2, 0, 3],
   [3, 0, 0, 0, 1, 0, 0, 0, 1, 0, 0, 0, 3],
   [3, 3, 3, 3, 3, 3, 3, 3, 3, 3, 3, 3, 3]]

/-- Columns that receive at least one non-floor block in the third
prototype's procedural map generation (src/unnamed/part_000 lines 375-396):
for every (x, z) in [-16, 16]² a floor tile is laid; the boundary gets a
two-high crate wall; away from the centre cross (`|x| < 2 && |z| < 2` is
skipped by `continue`), every position with `x % 4 === 0 && z % 4 === 0`
and x, z nonzero gets a red crate at (x, z) and a green crate at (x+1, z).
Each entry is one `addBlock` call for a block above the floor. -/
def v3Cells : List (ℤ × ℤ) :=
  (List.range 33).flatMap fun i =>
    (List.range 33).flatMap fun j =>
      let x : ℤ := (i : ℤ) - 16
      let z : ℤ := (j : ℤ) - 16
      (if x = -16 ∨ x = 16 ∨ z = -16 ∨ z = 16 then [(x, z), (x, z)] else []) ++
      (if x.natAbs < 2 ∧ z.natAbs < 2 then []
       else if x % 4 = 0 ∧ z % 4 = 0 ∧ x ≠ 0 ∧ z ≠ 0 then [(x, z), (x + 1, z)] else [])

/-- Whether a grid cell of the third prototype holds a solid block.  The
third prototype has no world-to-grid query of its own (its
`collidableMeshList` is filled but never consulted for movement), so cells
follow the shared convention of the other two variants: blocks sit centred at
`x * MAP_SCALE`, one cell per block column. -/
def v3Solid (cx cz : ℤ) : Bool := decide ((cx, cz) ∈ v3Cells)

/-- Cell a world coordinate maps to, at the shared `MAP_SCALE = 5`
(convention of `checkCollision` in the other two variants; the third
prototype itself never converts back). -/
def v3CellOf (p : Q2) : ℤ := jsRoundQ2 (p / Q2.ofQ BLOCK_SIZE)

/-- State of the third prototype: position, camera-frame velocity and the
one-shot jump latch `canJump` (declared `false` initially, set true by the
floor clamp, cleared by the Space handler). -/
structure V3State where
  x : Q2
  z : Q2
  y : ℚ
  vx : Q2
  vz : Q2
  vy : ℚ
  canJump : Bool
deriving DecidableEq

/-- Frame step of the third prototype (src/unnamed/part_000 lines 466-500):
friction, gravity, normalized input direction, velocity update, then the
movement is applied UNCONDITIONALLY — `moveRight(-velocity.x * delta)` and
`moveForward(-velocity.z * delta)` with no collision query of any kind —
followed by the y < 5 floor clamp that also re-arms `canJump`.
Constants: SPEED = 15 (scaled by 100), GRAVITY = 9.8 * 10.0, eye height 5. -/
def v3Animate (st : V3State) (dt : ℚ) (mF mB mL mR : Bool) : V3State :=
  let vx1 := st.vx - st.vx * Q2.ofQ (10 * dt)
  let vz1 := st.vz - st.vz * Q2.ofQ (10 * dt)
  let vy1 := st.vy - 98 * dt
  let dirz := numKey mF - numKey mB
  let dirx := numKey mR - numKey mL
  let n := jsNormalize dirx dirz
  let vz2 := if mF || mB then vz1 - n.2 * Q2.ofQ (15 * 100 * dt) else vz1
  let vx2 := if mL || mR then vx1 - n.1 * Q2.ofQ (15 * 100 * dt) else vx1
  let x1 := st.x + -(vx2 * Q2.ofQ dt)
  let z1 := st.z + -(vz2 * Q2.ofQ dt)
  let y1 := st.y + vy1 * dt
  if y1 < 5 then ⟨x1, z1, 5, vx2, vz2, 0, true⟩ else ⟨x1, z1, y1, vx2, vz2, vy1, st.canJump⟩

/-- Space branch of the third prototype's keydown handler
(src/unnamed/part_000 line 424): `if (canJump === true) velocity.y +=
JUMP_FORCE; canJump = false;` — the jump ADDS `JUMP_FORCE = 15` to the
velocity, only when the one-shot latch is armed, and always clears the
latch. -/
def v3OnKeyDownSpace (canJump : Bool) (vy : ℚ) : Bool × ℚ :=
  (false, if canJump then vy + 15 else vy)

/-! Basic lemmas about the exact coordinate field and the grid query. -/

namespace Q2

@[simp] theorem zero_def : (0 : Q2) = ⟨0, 0⟩ := rfl

@[simp] theorem one_def : (1 : Q2) = ⟨1, 0⟩ := rfl

@[simp] theorem mk_add_mk (a b c d : ℚ) : (⟨a, b⟩ + ⟨c, d⟩ : Q2) = ⟨a + c, b + d⟩ := rfl

@[simp] theorem neg_mk (a b : ℚ) : (-⟨a, b⟩ : Q2) = ⟨-a, -b⟩ := rfl

@[simp] theorem mk_sub_mk (a b c d : ℚ) : (⟨a, b⟩ - ⟨c, d⟩ : Q2) = ⟨a - c, b - d⟩ := rfl

@[simp] theorem mk_mul_mk (a b c d : ℚ) :
    (⟨a, b⟩ * ⟨c, d⟩ : Q2) = ⟨a * c + 2 * b * d, a * d + b * c⟩ := rfl

@[simp] theorem inv_mk (a b : ℚ) :
    (⟨a, b⟩ : Q2)⁻¹ = ⟨a / (a ^ 2 - 2 * b ^ 2), -b / (a ^ 2 - 2 * b ^ 2)⟩ := rfl

theorem div_def (x y : Q2) : x / y = x * y⁻¹ := rfl

@[ext] theorem ext {x y : Q2} (ha : x.a = y.a) (hb : x.b = y.b) : x = y := by
  cases x; cases y; cases ha; cases hb; rfl

@[simp] theorem floor_rat (q : ℚ) : floor ⟨q, 0⟩ = ⌊q⌋ := by simp [floor]

theorem add_zero (x : Q2) : x + 0 = x := by cases x; simp

theorem add_neg_cancel_right (x m : Q2) : x + m + -m = x := by
  cases x; cases m; simp

theorem add_right_injective {z m m' : Q2} (h : z + m = z + m') : m = m' := by
  cases z; cases m; cases m'
  simp only [mk_add_mk, mk.injEq] at h
  ext
  · linarith [h.1]
  · linarith [h.2]

theorem add_ne_self {z m : Q2} (hm : m ≠ 0) : z + m ≠ z := by
  intro h
  exact hm (add_right_injective (h.trans (add_zero z).symm))

theorem ofQ_ne_zero {q : ℚ} (h : q ≠ 0) : ofQ q ≠ 0 := by
  intro hh
  exact h (by simpa [ofQ] using congrArg Q2.a hh)

theorem ofQ_add (p q : ℚ) : ofQ p + ofQ q = ofQ (p + q) := by simp [ofQ]

theorem mul_ofQ_zero (x : Q2) : x * ofQ 0 = 0 := by cases x; simp [ofQ]

theorem ofQ_div (p q : ℚ) : ofQ p / ofQ q = ofQ (p / q) := by
  rcases eq_or_ne q 0 with h | h
  · simp [ofQ, div_def, h]
  · ext
    · simp only [ofQ, div_def, inv_mk, mk_mul_mk]
      field_simp
      ring
    · simp [ofQ, div_def]

end Q2

@[simp] theorem jsRoundQ2_mk_rat (q : ℚ) : jsRoundQ2 ⟨q, 0⟩ = ⌊q + 1 / 2⌋ := by
  simp [jsRoundQ2, Q2.ofQ]

@[simp] theorem jsRoundQ2_ofQ (q : ℚ) : jsRoundQ2 (Q2.ofQ q) = jsRound q := by
  simp [jsRound, Q2.ofQ]

/-- On rational world coordinates the grid query is exactly
`Math.round(w / BLOCK_SIZE)` membership. -/
theorem checkCollision_ofQ (solid : Finset (ℤ × ℤ)) (x z : ℚ) :
    checkCollision solid (Q2.ofQ x) (Q2.ofQ z) =
      decide ((jsRound (x / BLOCK_SIZE), jsRound (z / BLOCK_SIZE)) ∈ solid) := by
  simp [checkCollision, Q2.ofQ_div]

/-- The squared length of every combined intent vector is 0, 1 or 2: the
whole domain `q2sqrtSmall` is ever applied to. -/
theorem intent_lenSq_mem (w a s d : Bool) :
    (numKey d - numKey a) * (numKey d - numKey a) +
      (numKey w - numKey s) * (numKey w - numKey s) ∈ ({0, 1, 2} : Set ℚ) := by
  cases w <;> cases a <;> cases s <;> cases d <;> norm_num [numKey]

/-! Claim theorems. -/

/-- C1 (confirmed): the per-step axis-separated collision resolution applies
the X displacement first and reverts only it if the resulting cell is solid,
then applies the Z displacement to the possibly-updated position and reverts
only it if the resulting cell is solid.  Consequently, for a diagonal move
into an inside corner — the cell straight ahead on X (cell of (x+mx, z))
solid, the cell ahead on Z from the reverted position (cell of (x, z+mz))
open — the resolved position is exactly (x, z + mz): the Z component is
retained and the X component dropped (wall slide); since mz ≠ 0 it is not a
full stop, and since mx ≠ 0 the dropped X really was a move. -/
theorem c1_axis_separated_wall_slide (solid : Finset (ℤ × ℤ)) (x z mx mz : Q2)
    (hx : checkCollision solid (x + mx) z = true)
    (hz : checkCollision solid x (z + mz) = false)
    (hmx : mx ≠ 0) (hmz : mz ≠ 0) :
    resolveHoriz solid x z mx mz = (x, z + mz) ∧ z + mz ≠ z ∧ x + mx ≠ x := by
  refine ⟨?_, Q2.add_ne_self hmz, Q2.add_ne_self hmx⟩
  simp [resolveHoriz, hx, Q2.add_neg_cancel_right, hz]

/-- Witness for C1 at a concrete inside corner: solid cell (1, 0), position
(2, 0), diagonal displacement (1, 1): the X move into world x = 3 (cell 1)
is reverted, the Z move to world z = 1 (cell 0) is kept. -/
theorem c1_axis_separated_wall_slide_witness :
    resolveHoriz {((1 : ℤ), (0 : ℤ))} (Q2.ofQ 2) (Q2.ofQ 0) (Q2.ofQ 1) (Q2.ofQ 1) =
      (Q2.ofQ 2, Q2.ofQ 0 + Q2.ofQ 1) ∧
    Q2.ofQ 0 + Q2.ofQ 1 ≠ Q2.ofQ 0 ∧ Q2.ofQ 2 + Q2.ofQ 1 ≠ Q2.ofQ 2 :=
  c1_axis_separated_wall_slide _ _ _ _ _
    (by rw [Q2.ofQ_add, checkCollision_ofQ]; norm_num [jsRound, BLOCK_SIZE, Prod.ext_iff])
    (by rw [Q2.ofQ_add, checkCollision_ofQ]; norm_num [jsRound, BLOCK_SIZE, Prod.ext_iff])
    (Q2.ofQ_ne_zero (by norm_num))
    (Q2.ofQ_ne_zero (by norm_num))

/-- Helper: the axis-separated resolution preserves "position maps to a
non-solid cell": each axis displacement is kept only when its
`checkCollision` query fails, and a reverted axis restores a coordinate
already known to be open. -/
theorem resolveHoriz_preserves_open (solid : Finset (ℤ × ℤ)) (x z mx mz : Q2)
    (h : checkCollision solid x z = false) :
    checkCollision solid (resolveHoriz solid x z mx mz).1
      (resolveHoriz solid x z mx mz).2 = false := by
  have e1 := Q2.add_neg_cancel_right x mx
  have e2 := Q2.add_neg_cancel_right z mz
  cases h1 : checkCollision solid (x + mx) z with
  | false =>
    cases h2 : checkCollision solid (x + mx) (z + mz) with
    | false => simp [resolveHoriz, h1, h2]
    | true => simp [resolveHoriz, h1, h2, e2]
  | true =>
    cases h2 : checkCollision solid x (z + mz) with
    | false => simp [resolveHoriz, h1, e1, h2]
    | true => simpa [resolveHoriz, h1, e1, h2, e2] using h

/-- C2 (amended): in the two variants whose frame loop queries the grid
(src/main.js and the first part_000 variant), every step of the per-frame
update preserves "the horizontal position maps to a non-solid cell": no
horizontal move is ever committed into a solid cell.  The frozen claim
additionally asserts this for "every prototype variant's frame loop"; the
third prototype performs no horizontal collision query at all and violates
it — see `c2_third_variant_counterexample`. -/
theorem c2_step_never_enters_solid_cell (g H speed jf : ℚ) (solid : Finset (ℤ × ℤ))
    (st : CState) (w a s d space : Bool) (dt : ℚ)
    (h : checkCollision solid st.x st.z = false) :
    checkCollision solid (animate g H speed jf solid st w a s d space dt).x
      (animate g H speed jf solid st w a s d space dt).z = false := by
  simp only [animate]
  exact resolveHoriz_preserves_open _ _ _ _ _ h

/-- Witness for C2 (amended): a frame step pushing right into the solid cell
(1,0) from the open origin cell ends in a non-solid cell. -/
theorem c2_step_never_enters_solid_cell_witness :
    checkCollision {((1 : ℤ), (0 : ℤ))}
      (animate 100 10 60 40 {((1 : ℤ), (0 : ℤ))} ⟨Q2.ofQ 0, 10, Q2.ofQ 0, 0⟩
        false false false true false (1/12)).x
      (animate 100 10 60 40 {((1 : ℤ), (0 : ℤ))} ⟨Q2.ofQ 0, 10, Q2.ofQ 0, 0⟩
        false false false true false (1/12)).z = false :=
  c2_step_never_enters_solid_cell 100 10 60 40 _ _ false false false true false (1/12)
    (by rw [checkCollision_ofQ]; norm_num [jsRound, BLOCK_SIZE, Prod.ext_iff])

/-- C3 (confirmed): ground clamp.  Gravity is applied to the velocity before
the position update (`velocity.y -= g * delta`, then
`position.y += velocity.y * delta`), so the step integrates with vv - g·dt;
whenever that integration would put y strictly below the eye height, the step
ends with y equal to the eye height exactly and the vertical velocity equal
to 0.  (The step with jump requested overwrites the zeroed velocity with the
jump force; that case is claim C4.) -/
theorem c3_ground_clamp (g H jf y vv dt : ℚ)
    (h : y + (vv - g * dt) * dt < H) :
    vstep g H jf y vv dt false = (H, 0) := by
  simp [vstep, h]

/-- Witness for C3 with the main.js constants: falling from rest at y = 10
for dt = 0.1 would reach y = 9 < 10; the step clamps to (10, 0). -/
theorem c3_ground_clamp_witness : vstep 100 10 40 10 0 (1/10) false = (10, 0) :=
  c3_ground_clamp 100 10 40 10 0 (1/10) (by norm_num)

/-- C4 (amended): in the two variants that poll the space key inside the
frame loop, whenever the vertical integration puts y STRICTLY below the eye
height (the code tests `position.y < PLAYER_HEIGHT`) and jump is requested,
the post-step vertical velocity is assigned exactly the configured jump force
(set, not accumulated), and this happens on every such step — those variants
have no one-shot latch.  Moreover the following step's vertical integration
begins decreasing that velocity by gravityConstant·dt (the code runs
`velocity.y -= g * delta` at the top of every frame): from the post-jump
state (eyeHeight, jumpForce), any following step that stays at or above the
eye height ends with velocity jumpForce - g·dt₂ and position
eyeHeight + (jumpForce - g·dt₂)·dt₂.  The frozen claim's "at or below eye
height" boundary case and its "no one-shot latch" across every variant (the
third prototype has the `canJump` latch and uses `+=`) both fail; see
`c4_counterexample`. -/
theorem c4_jump_sets_jump_force (g H jf y vv dt : ℚ)
    (h : y + (vv - g * dt) * dt < H) :
    vstep g H jf y vv dt true = (H, jf) ∧
    (∀ (dt₂ : ℚ) (space₂ : Bool), ¬(H + (jf - g * dt₂) * dt₂ < H) →
      vstep g H jf H jf dt₂ space₂ = (H + (jf - g * dt₂) * dt₂, jf - g * dt₂)) := by
  refine ⟨by simp [vstep, h], ?_⟩
  intro dt₂ space₂ h₂
  simp [vstep, h₂]

/-- Witness for C4 (amended) with the main.js constants: grounded with jump
held, the post-step velocity is exactly the jump force 40, and the following
step at dt = 0.1 integrates with velocity 40 - 100·0.1 = 30, reaching
y = 13. -/
theorem c4_jump_sets_jump_force_witness :
    vstep 100 10 40 10 0 (1/10) true = (10, 40) ∧
    vstep 100 10 40 10 40 (1/10) true =
      (10 + (40 - 100 * (1/10)) * (1/10), 40 - 100 * (1/10)) :=
  ⟨(c4_jump_sets_jump_force 100 10 40 10 0 (1/10) (by norm_num)).1,
   (c4_jump_sets_jump_force 100 10 40 10 0 (1/10) (by norm_num)).2 (1/10) true (by norm_num)⟩

/-- C4 (counterexample): the frozen claim fails twice.  (i) Boundary: with
the main.js constants, from y = 10.5, vv = 5, dt = 0.1 the integration lands
exactly AT the eye height 10 — "at or below", hence grounded in the claim's
sense — yet with jump requested the step yields velocity -5, not the jump
force 40, because the code's clamp tests strictly below.  (ii) The third
prototype's Space handler: with its one-shot `canJump` latch unset (its
declared initial state) and the character grounded, the handler leaves the
velocity at 0, not the jump force 15 — the latch denies the jump. -/
theorem c4_counterexample :
    vstep 100 10 40 (21/2) 5 (1/10) true = (10, -5) ∧
    (21/2 : ℚ) + (5 - 100 * (1/10)) * (1/10) ≤ 10 ∧
    (vstep 100 10 40 (21/2) 5 (1/10) true).2 ≠ 40 ∧
    v3OnKeyDownSpace false 0 = (false, 0) ∧
    (v3OnKeyDownSpace false 0).2 ≠ 15 := by
  have hv : vstep 100 10 40 (21/2) 5 (1/10) true = (10, -5) := by
    norm_num [vstep]
  refine ⟨hv, by norm_num, ?_, rfl, by norm_num [v3OnKeyDownSpace]⟩
  rw [hv]
  norm_num

/-- C9 (confirmed): when the combined movement intent vector is zero (no
direction keys, or opposing keys cancelling), the horizontal displacement of
the step is exactly zero in both X and Z.  `normalize` divides by
`length() || 1`, so the zero vector is left unchanged rather than producing
NaN, the proposed displacement is 0·speed·dt = 0, and both collision branches
leave the coordinates untouched; the step is a total function, so no error is
raised. -/
theorem c9_zero_intent_zero_displacement (g H speed jf : ℚ) (solid : Finset (ℤ × ℤ))
    (st : CState) (w a s d space : Bool) (dt : ℚ)
    (hx : numKey d - numKey a = 0) (hz : numKey w - numKey s = 0) :
    (animate g H speed jf solid st w a s d space dt).x = st.x ∧
    (animate g H speed jf solid st w a s d space dt).z = st.z := by
  obtain ⟨⟨sxa, sxb⟩, sy, ⟨sza, szb⟩, svy⟩ := st
  simp [animate, hx, hz, jsNormalize, q2sqrtSmall, resolveHoriz, Q2.div_def, Q2.ofQ]

/-- Witness for C9: W and S held together cancel; position (1, _, 2) is
unchanged by the step. -/
theorem c9_zero_intent_zero_displacement_witness :
    (animate 100 10 60 40 ∅ ⟨Q2.ofQ 1, 10, Q2.ofQ 2, 0⟩ true false true false false (1/60)).x =
      Q2.ofQ 1 ∧
    (animate 100 10 60 40 ∅ ⟨Q2.ofQ 1, 10, Q2.ofQ 2, 0⟩ true false true false false (1/60)).z =
      Q2.ofQ 2 :=
  c9_zero_intent_zero_displacement 100 10 60 40 ∅ _ true false true false false (1/60)
    (by norm_num [numKey]) (by norm_num [numKey])

/-- C5 (confirmed): for every world coordinate pair, `checkCollision`
returns exactly the membership of the cell (round(x/cellSize),
round(z/cellSize)) in the solid set, where the rounding is round-half-up to
the nearest integer: the chosen cell g is characterized by
g - 1/2 ≤ w/cellSize < g + 1/2.  The query is a pure total function of its
arguments and the grid (the embedding is a plain function and the JS body
only reads `solidBlocks`), has no side effects on the grid, and never fails:
it is defined for every input. -/
theorem c5_checkCollision_rounded_membership (solid : Finset (ℤ × ℤ)) (x z : ℚ) (gx gz : ℤ)
    (hx1 : (gx : ℚ) - 1/2 ≤ x / BLOCK_SIZE) (hx2 : x / BLOCK_SIZE < (gx : ℚ) + 1/2)
    (hz1 : (gz : ℚ) - 1/2 ≤ z / BLOCK_SIZE) (hz2 : z / BLOCK_SIZE < (gz : ℚ) + 1/2) :
    checkCollision solid (Q2.ofQ x) (Q2.ofQ z) = true ↔ (gx, gz) ∈ solid := by
  have ex : jsRound (x / BLOCK_SIZE) = gx := by
    rw [jsRound, Int.floor_eq_iff]
    constructor <;> linarith
  have ez : jsRound (z / BLOCK_SIZE) = gz := by
    rw [jsRound, Int.floor_eq_iff]
    constructor <;> linarith
  rw [checkCollision_ofQ, ex, ez]
  simp

/-- Witness for C5: world x = 7.4 has x/5 = 1.48 ∈ [0.5, 1.5), so it maps to
cell 1 and the query over the singleton grid {(1,0)} reports solid. -/
theorem c5_checkCollision_rounded_membership_witness :
    checkCollision {((1 : ℤ), (0 : ℤ))} (Q2.ofQ (37/5)) (Q2.ofQ 0) = true :=
  (c5_checkCollision_rounded_membership {((1 : ℤ), (0 : ℤ))} (37/5) 0 1 0
    (by norm_num [BLOCK_SIZE]) (by norm_num [BLOCK_SIZE])
    (by norm_num [BLOCK_SIZE]) (by norm_num [BLOCK_SIZE])).mpr (by decide)

/-- C10 (confirmed): the grid conversion rounds ties toward +∞
(`Math.round`), not away from zero: (i) a world coordinate exactly halfway
between two cell centers, x = (g + 1/2)·cellSize, always maps to the
higher-numbered cell g + 1; (ii) in particular x = -0.5·cellSize maps to
cell 0; (iii) the solid footprint of a registered cell g is the half-open
world interval [(g - 1/2)·cellSize, (g + 1/2)·cellSize) — asymmetric across
the origin. -/
theorem c10_ties_toward_positive_infinity :
    (∀ g : ℤ, jsRound (((g : ℚ) + 1/2) * BLOCK_SIZE / BLOCK_SIZE) = g + 1) ∧
    jsRound (-(1/2) * BLOCK_SIZE / BLOCK_SIZE) = 0 ∧
    (∀ (g : ℤ) (x z : ℚ), jsRound (z / BLOCK_SIZE) = 0 →
      (checkCollision {(g, 0)} (Q2.ofQ x) (Q2.ofQ z) = true ↔
        ((g : ℚ) - 1/2) * BLOCK_SIZE ≤ x ∧ x < ((g : ℚ) + 1/2) * BLOCK_SIZE)) := by
  refine ⟨?_, by norm_num [jsRound, BLOCK_SIZE], ?_⟩
  · intro g
    have h5 : ((g : ℚ) + 1/2) * BLOCK_SIZE / BLOCK_SIZE = (g : ℚ) + 1/2 := by
      rw [mul_div_cancel_right₀]
      norm_num [BLOCK_SIZE]
    have h1 : (g : ℚ) + 1/2 + 1/2 = ((g + 1 : ℤ) : ℚ) := by push_cast; ring
    rw [jsRound, h5, h1, Int.floor_intCast]
  · intro g x z hz
    rw [checkCollision_ofQ, hz]
    have hmem : ((jsRound (x / BLOCK_SIZE), (0 : ℤ)) ∈ ({(g, 0)} : Finset (ℤ × ℤ))) ↔
        jsRound (x / BLOCK_SIZE) = g := by
      simp
    rw [decide_eq_true_eq, hmem, jsRound, Int.floor_eq_iff]
    rw [show BLOCK_SIZE = 5 from rfl] at *
    constructor
    · rintro ⟨h1, h2⟩
      constructor <;> nlinarith [h1, h2]
    · rintro ⟨h1, h2⟩
      constructor <;> nlinarith [h1, h2]

/-- Witness for C10: the tie x = 3.5·cellSize maps to cell 4 (not 3), and
cell 1's footprint over the singleton grid {(1,0)} is [2.5, 7.5): x = 7 is
inside. -/
theorem c10_ties_toward_positive_infinity_witness :
    jsRound ((((3 : ℤ) : ℚ) + 1/2) * BLOCK_SIZE / BLOCK_SIZE) = (3 : ℤ) + 1 ∧
    (checkCollision {((1 : ℤ), (0 : ℤ))} (Q2.ofQ 7) (Q2.ofQ 0) = true ↔
      (((1 : ℤ) : ℚ) - 1/2) * BLOCK_SIZE ≤ 7 ∧ (7 : ℚ) < (((1 : ℤ) : ℚ) + 1/2) * BLOCK_SIZE) :=
  ⟨c10_ties_toward_positive_infinity.1 3,
   c10_ties_toward_positive_infinity.2.2 1 7 0 (by norm_num [jsRound, BLOCK_SIZE])⟩

/-- C7 (amended): the source performs no dt validation at all (the cited
lines only compute `delta` from the monotonic clock).  What does hold: for
dt = 0 — the only degenerate value the monotonic clock can produce — the
step has zero effect on the entire character state whenever y is at or above
the eye height, which is true at every frame boundary.  A negative dt,
however, is integrated as-is (gravity accelerates upward, displacement
reverses), contradicting the frozen "clamp to zero effect" claim: see
`c7_counterexample`.  (Non-finite dt is a floating-point notion outside this
exact model; the source contains no clamping for it either.) -/
theorem c7_dt_zero_identity (g H speed jf : ℚ) (solid : Finset (ℤ × ℤ))
    (st : CState) (w a s d space : Bool) (h : H ≤ st.y) :
    animate g H speed jf solid st w a s d space 0 = st := by
  obtain ⟨⟨sxa, sxb⟩, sy, ⟨sza, szb⟩, svy⟩ := st
  have h' : ¬(sy < H) := not_lt.2 h
  simp [animate, resolveHoriz, vstep, Q2.mul_ofQ_zero, h']

/-- Witness for C7 (amended): a concrete dt = 0 step from the spawn state
with W and Space held changes nothing. -/
theorem c7_dt_zero_identity_witness :
    animate 100 10 60 40 ∅ ⟨Q2.ofQ 0, 10, Q2.ofQ 0, 0⟩ true false false false true 0 =
      ⟨Q2.ofQ 0, 10, Q2.ofQ 0, 0⟩ :=
  c7_dt_zero_identity 100 10 60 40 ∅ _ true false false false true (by norm_num)

/-- C7 (counterexample): dt = -0.1 ≤ 0 is NOT clamped to zero effect: in the
main.js step from rest at the spawn with W held, the normalized intent is
(0, 1), the proposed displacement 60·(-0.1) = -6 is committed (no wall in the
empty grid), and z moves from 0 to -6 — the post-step state differs from the
pre-step state. -/
theorem c7_counterexample :
    ((-1/10 : ℚ) ≤ 0) ∧
    (animate 100 10 60 40 ∅ ⟨Q2.ofQ 0, 10, Q2.ofQ 0, 0⟩ true false false false false
      (-1/10)).z = Q2.ofQ (-6) ∧
    Q2.ofQ (-6) ≠ Q2.ofQ 0 := by
  refine ⟨by norm_num, ?_, ?_⟩
  · simp [animate, resolveHoriz, vstep, jsNormalize, q2sqrtSmall, numKey, checkCollision,
      Q2.div_def, Q2.ofQ]
    norm_num
  · intro hh
    have := congrArg Q2.a hh
    norm_num [Q2.ofQ] at this

/-- Cell conversion of a rational world coordinate for the third prototype
matches `Math.round(w / MAP_SCALE)`. -/
theorem v3CellOf_ofQ (q : ℚ) : v3CellOf (Q2.ofQ q) = jsRound (q / BLOCK_SIZE) := by
  simp [v3CellOf, Q2.ofQ_div]

/-- C2 (counterexample): the third prototype's frame loop commits horizontal
movement with no collision query whatsoever.  Concrete refutation of the
frozen claim's "every prototype variant's frame loop": from world position
(77, 5) — cell (15, 1), which holds no block — with leftover velocity
vx = -42 and no keys held, one step at dt = 0.05 applies friction
(vx becomes -21) and moves the character by -(-21)·0.05 = +1.05 to
x = 78.05, which maps to cell (16, 1) — a boundary-wall column — so the
horizontal move is committed into a solid cell. -/
theorem c2_third_variant_counterexample :
    v3Solid (v3CellOf (Q2.ofQ 77)) (v3CellOf (Q2.ofQ 5)) = false ∧
    v3Solid
      (v3CellOf (v3Animate ⟨Q2.ofQ 77, Q2.ofQ 5, 5, Q2.ofQ (-42), Q2.ofQ 0, 0, true⟩
        (1/20) false false false false).x)
      (v3CellOf (v3Animate ⟨Q2.ofQ 77, Q2.ofQ 5, 5, Q2.ofQ (-42), Q2.ofQ 0, 0, true⟩
        (1/20) false false false false).z) = true := by
  have hx : (v3Animate ⟨Q2.ofQ 77, Q2.ofQ 5, 5, Q2.ofQ (-42), Q2.ofQ 0, 0, true⟩
      (1/20) false false false false).x = Q2.ofQ (1561/20) := by
    simp [v3Animate, jsNormalize, q2sqrtSmall, numKey, Q2.div_def, Q2.ofQ]
    norm_num
  have hz : (v3Animate ⟨Q2.ofQ 77, Q2.ofQ 5, 5, Q2.ofQ (-42), Q2.ofQ 0, 0, true⟩
      (1/20) false false false false).z = Q2.ofQ 5 := by
    simp [v3Animate, jsNormalize, q2sqrtSmall, numKey, Q2.div_def, Q2.ofQ]
  rw [hx, hz]
  have e1 : v3CellOf (Q2.ofQ 77) = 15 := by rw [v3CellOf_ofQ]; norm_num [jsRound, BLOCK_SIZE]
  have e2 : v3CellOf (Q2.ofQ 5) = 1 := by rw [v3CellOf_ofQ]; norm_num [jsRound, BLOCK_SIZE]
  have e3 : v3CellOf (Q2.ofQ (1561/20)) = 16 := by
    rw [v3CellOf_ofQ]; norm_num [jsRound, BLOCK_SIZE]
  rw [e1, e2, e3]
  exact ⟨by decide, by decide⟩

/-- Membership in the key list of one scanned row: exactly the keys of
columns whose code registers at least once. -/
theorem mem_regRow {regs : ℕ → ℕ} {key : ℕ → ℕ → ℤ × ℤ} {ri : ℕ} {p : ℤ × ℤ} :
    ∀ (c0 : ℕ) (ts : List ℕ),
      (p ∈ regRow regs key ri c0 ts ↔
        ∃ i t, ts[i]? = some t ∧ regs t ≠ 0 ∧ p = key (c0 + i) ri) := by
  intro c0 ts
  induction ts generalizing c0 with
  | nil => simp [regRow]
  | cons t ts ih =>
    simp only [regRow, List.mem_append, List.mem_replicate, ih (c0 + 1)]
    constructor
    · rintro (⟨hn, hp⟩ | ⟨i, t', hi, hn, hp⟩)
      · exact ⟨0, t, by simp, hn, by simpa using hp⟩
      · refine ⟨i + 1, t', by simpa using hi, hn, ?_⟩
        rw [hp]
        congr 1
        omega
    · rintro ⟨i, t', hi, hn, hp⟩
      cases i with
      | zero =>
        simp only [List.getElem?_cons_zero, Option.some.injEq] at hi
        subst hi
        exact Or.inl ⟨hn, by simpa using hp⟩
      | succ i =>
        refine Or.inr ⟨i, t', by simpa using hi, hn, ?_⟩
        rw [hp]
        congr 1
        omega

/-- Membership in the key list of the whole scan. -/
theorem mem_regRows {regs : ℕ → ℕ} {key : ℕ → ℕ → ℤ × ℤ} {p : ℤ × ℤ} :
    ∀ (r0 : ℕ) (rs : List (List ℕ)),
      (p ∈ regRows regs key r0 rs ↔
        ∃ j row, rs[j]? = some row ∧
          ∃ i t, row[i]? = some t ∧ regs t ≠ 0 ∧ p = key i (r0 + j)) := by
  intro r0 rs
  induction rs generalizing r0 with
  | nil => simp [regRows]
  | cons r rs ih =>
    simp only [regRows, List.mem_append, mem_regRow 0 r, ih (r0 + 1)]
    constructor
    · rintro (⟨i, t, hi, hn, hp⟩ | ⟨j, row, hj, i, t, hi, hn, hp⟩)
      · exact ⟨0, r, by simp, i, t, hi, hn, by simpa using hp⟩
      · refine ⟨j + 1, row, by simpa using hj, i, t, hi, hn, ?_⟩
        rw [hp]
        congr 1
        omega
    · rintro ⟨j, row, hj, i, t, hi, hn, hp⟩
      cases j with
      | zero =>
        simp only [List.getElem?_cons_zero, Option.some.injEq] at hj
        subst hj
        exact Or.inl ⟨i, t, hi, hn, by simpa using hp⟩
      | succ j =>
        refine Or.inr ⟨j, row, by simpa using hj, i, t, hi, hn, ?_⟩
        rw [hp]
        congr 1
        omega

/-- Characterization of the main.js solid set. -/
theorem mem_buildMapV1 {L : List (List ℕ)} {p : ℤ × ℤ} :
    p ∈ buildMapV1 L ↔
      ∃ j row, L[j]? = some row ∧
        ∃ i t, row[i]? = some t ∧ obstacleRegsV1 t ≠ 0 ∧ p = keyV1 L.length i j := by
  rw [buildMapV1, List.mem_toFinset, mem_regRows 0 L]
  simp

/-- Characterization of the first part_000 variant's solid set. -/
theorem mem_buildMapV2 {L : List (List ℕ)} {p : ℤ × ℤ} :
    p ∈ buildMapV2 L ↔
      ∃ j row, L[j]? = some row ∧
        ∃ i t, row[i]? = some t ∧ obstacleRegsV2 t ≠ 0 ∧
          p = keyV2 ((L.headD []).length / 2) (L.length / 2) i j := by
  rw [buildMapV2, List.mem_toFinset, mem_regRows 0 L]
  simp

theorem jsRound_int_add (k : ℤ) (q : ℚ) : jsRound ((k : ℚ) + q) = k + jsRound q := by
  simp [jsRound, add_assoc, Int.floor_int_add]

/-- Closed form of the main.js key: the column/row index shifted by the
rounded half-size offset. -/
theorem keyV1_eq (n ci ri : ℕ) :
    keyV1 n ci ri = ((ci : ℤ) + jsRound (-(n : ℚ) / 2), (ri : ℤ) + jsRound (-(n : ℚ) / 2)) := by
  have hx : ∀ m : ℕ, ((m : ℚ) - (n : ℚ) / 2) = ((m : ℤ) : ℚ) + (-(n : ℚ) / 2) := by
    intro m
    push_cast
    ring
  simp only [keyV1, hx, jsRound_int_add]

theorem keyV1_inj (n : ℕ) {ci ri ci' ri' : ℕ}
    (h : keyV1 n ci ri = keyV1 n ci' ri') : ci = ci' ∧ ri = ri' := by
  rw [keyV1_eq, keyV1_eq] at h
  simp only [Prod.ext_iff] at h
  omega

theorem jsRound_intCast (j : ℤ) : jsRound ((j : ℤ) : ℚ) = j := by
  rw [jsRound, Int.floor_int_add]
  norm_num

/-- Closed form of the part_000 key: plain integer offsets. -/
theorem keyV2_eq (oX oZ ci ri : ℕ) :
    keyV2 oX oZ ci ri = ((ci : ℤ) - oX, (ri : ℤ) - oZ) := by
  have h : ∀ m k : ℕ, ((m : ℚ) - (k : ℚ)) = (((m : ℤ) - (k : ℤ) : ℤ) : ℚ) := by
    intro m k
    push_cast
    ring
  simp only [keyV2, h, jsRound_intCast]

theorem keyV2_inj (oX oZ : ℕ) {ci ri ci' ri' : ℕ}
    (h : keyV2 oX oZ ci ri = keyV2 oX oZ ci' ri') : ci = ci' ∧ ri = ri' := by
  rw [keyV2_eq, keyV2_eq] at h
  simp only [Prod.ext_iff] at h
  omega

/-- C6 (confirmed): after the build operation on any layout, the solid set
contains the registered rounded key of a layout position exactly when that
position's cell-type code is an obstacle code — regardless of how many
vertical layers the code implies (src/main.js: code 2 = single crate, 3 =
triple wall, 4 = double container all register the same single key, which
the JS `Set` — a `Finset` here — holds once; the first part_000 variant:
codes 1, 2, 3 likewise) — and contains no entry for any non-obstacle code
(void/floor): distinct layout positions map to distinct keys, so a
non-obstacle position's key is contributed by no other position. -/
theorem c6_build_registers_obstacle_columns_once (L : List (List ℕ)) (ri ci : ℕ)
    (row : List ℕ) (t : ℕ) (hrow : L[ri]? = some row) (ht : row[ci]? = some t) :
    ((t = 2 ∨ t = 3 ∨ t = 4) → keyV1 L.length ci ri ∈ buildMapV1 L) ∧
    (¬(t = 2 ∨ t = 3 ∨ t = 4) → keyV1 L.length ci ri ∉ buildMapV1 L) ∧
    ((t = 1 ∨ t = 2 ∨ t = 3) →
      keyV2 ((L.headD []).length / 2) (L.length / 2) ci ri ∈ buildMapV2 L) ∧
    (¬(t = 1 ∨ t = 2 ∨ t = 3) →
      keyV2 ((L.headD []).length / 2) (L.length / 2) ci ri ∉ buildMapV2 L) := by
  refine ⟨?_, ?_, ?_, ?_⟩
  · intro hobs
    rw [mem_buildMapV1]
    refine ⟨ri, row, hrow, ci, t, ht, ?_, rfl⟩
    rcases hobs with h | h | h <;> simp [obstacleRegsV1, h]
  · intro hnon
    rw [mem_buildMapV1]
    rintro ⟨j, row', hj, i, t', ht', hreg, hkey⟩
    obtain ⟨hci, hri⟩ := keyV1_inj L.length hkey
    subst hci
    subst hri
    rw [hrow] at hj
    cases hj
    rw [ht] at ht'
    cases ht'
    push_neg at hnon
    simp [obstacleRegsV1, hnon.1, hnon.2.1, hnon.2.2] at hreg
  · intro hobs
    rw [mem_buildMapV2]
    refine ⟨ri, row, hrow, ci, t, ht, ?_, rfl⟩
    rcases hobs with h | h | h <;> simp [obstacleRegsV2, h]
  · intro hnon
    rw [mem_buildMapV2]
    rintro ⟨j, row', hj, i, t', ht', hreg, hkey⟩
    obtain ⟨hci, hri⟩ := keyV2_inj _ _ hkey
    subst hci
    subst hri
    rw [hrow] at hj
    cases hj
    rw [ht] at ht'
    cases ht'
    push_neg at hnon
    simp [obstacleRegsV2, hnon.1, hnon.2.1, hnon.2.2] at hreg

/-- Witness for C6 on the shipped layouts: the wall corner (0,0) of the
main.js layout (code 3, three layers) is solid and the floor cell (1,1)
(code 1) is not; the double stack at (2,2) of the part_000 layout (code 2)
is solid and the floor cell (1,1) (code 0) is not. -/
theorem c6_build_registers_obstacle_columns_once_witness :
    keyV1 levelLayoutV1.length 0 0 ∈ buildMapV1 levelLayoutV1 ∧
    keyV1 levelLayoutV1.length 1 1 ∉ buildMapV1 levelLayoutV1 ∧
    keyV2 ((levelLayoutV2.headD []).length / 2) (levelLayoutV2.length / 2) 2 2 ∈
      buildMapV2 levelLayoutV2 ∧
    keyV2 ((levelLayoutV2.headD []).length / 2) (levelLayoutV2.length / 2) 1 1 ∉
      buildMapV2 levelLayoutV2 :=
  ⟨(c6_build_registers_obstacle_columns_once levelLayoutV1 0 0
      [3, 3, 3, 3, 3, 3, 3, 3, 3, 3, 3, 3, 3, 3, 3] 3 rfl rfl).1 (by decide),
   (c6_build_registers_obstacle_columns_once levelLayoutV1 1 1
      [3, 1, 1, 1, 1, 2, 1, 1, 1, 2, 1, 1, 1, 1, 3] 1 rfl rfl).2.1 (by decide),
   (c6_build_registers_obstacle_columns_once levelLayoutV2 2 2
      [3, 0, 2, 2, 0, 0, 0, 0, 0, 2, 2, 0, 3] 2 rfl rfl).2.2.1 (by decide),
   (c6_build_registers_obstacle_columns_once levelLayoutV2 1 1
      [3, 0, 0, 0, 1, 0, 0, 0, 1, 0, 0, 0, 3] 0 rfl rfl).2.2.2 (by decide)⟩

/-- Every row of the main.js layout has 15 columns. -/
theorem levelLayoutV1_row_length : ∀ row ∈ levelLayoutV1, row.length = 15 := by decide

/-- C8 (confirmed): a query whose world coordinates map to a cell not in the
populated set returns false — an unpopulated cell is no error, and the query
(a total function) cannot throw.  In particular every coordinate with
x > 40, arbitrarily far outside the built main.js map (whose keys all have
first component at most 7), is reported open. -/
theorem c8_unpopulated_cells_open :
    (∀ (solid : Finset (ℤ × ℤ)) (x z : ℚ),
      (jsRound (x / BLOCK_SIZE), jsRound (z / BLOCK_SIZE)) ∉ solid →
      checkCollision solid (Q2.ofQ x) (Q2.ofQ z) = false) ∧
    (∀ x z : ℚ, 40 < x →
      checkCollision (buildMapV1 levelLayoutV1) (Q2.ofQ x) (Q2.ofQ z) = false) := by
  have base : ∀ (solid : Finset (ℤ × ℤ)) (x z : ℚ),
      (jsRound (x / BLOCK_SIZE), jsRound (z / BLOCK_SIZE)) ∉ solid →
      checkCollision solid (Q2.ofQ x) (Q2.ofQ z) = false := by
    intro solid x z h
    rw [checkCollision_ofQ]
    simpa using h
  refine ⟨base, ?_⟩
  intro x z hx
  apply base
  intro hmem
  rw [mem_buildMapV1] at hmem
  obtain ⟨j, row, hj, i, t, ht, hreg, hkey⟩ := hmem
  have hrowmem : row ∈ levelLayoutV1 := by
    have := List.getElem?_eq_some.mp hj
    obtain ⟨hlt, hget⟩ := this
    exact hget ▸ List.getElem_mem hlt
  have hrowlen : row.length = 15 := levelLayoutV1_row_length row hrowmem
  have hi : i < 15 := by
    obtain ⟨hlt, _⟩ := List.getElem?_eq_some.mp ht
    omega
  have hlen : levelLayoutV1.length = 15 := by rfl
  have hoff : jsRound (-(15 : ℚ) / 2) = -7 := by norm_num [jsRound]
  have hk1 : (keyV1 levelLayoutV1.length i j).1 = (i : ℤ) - 7 := by
    rw [hlen, keyV1_eq]
    push_cast [hoff]
    ring
  have hfst := congrArg Prod.fst hkey
  rw [hk1] at hfst
  have h8 : 8 ≤ jsRound (x / BLOCK_SIZE) := by
    rw [jsRound, Int.le_floor, show BLOCK_SIZE = (5 : ℚ) from rfl]
    push_cast
    linarith
  simp only at hfst
  omega

/-- Witness for C8: the empty grid reports open at the origin, and the built
main.js map reports open at world x = 1000, far outside the layout. -/
theorem c8_unpopulated_cells_open_witness :
    checkCollision ∅ (Q2.ofQ 0) (Q2.ofQ 0) = false ∧
    checkCollision (buildMapV1 levelLayoutV1) (Q2.ofQ 1000) (Q2.ofQ 0) = false :=
  ⟨c8_unpopulated_cells_open.1 ∅ 0 0 (by simp),
   c8_unpopulated_cells_open.2 1000 0 (by norm_num)⟩
